import Mathlib

/-!
Shallow embedding of the DreamForge Studio image-generation front end
(`app.py`, full variant, and `app_vercel.py`, demo variant), together with
proofs about its parameter normalization, prompt construction, seed
resolution, pipeline invocation, persistence and error handling.

Conventions of the embedding:
* Python integers are `Int`; Python `//` (floor division) is `Int.fdiv`.
* Python strings are `String`; slicing `s[:n]` acts on code points, matching
  Lean's `List Char` view of a string.
* Side effects (pipeline calls, file writes, directory creation, log lines,
  sleeps) are recorded in explicit trace fields of the result records.
* Nondeterministic/ambient inputs of one `generate_image` run (the random
  seed drawn by `torch.randint`, the `strftime` timestamp, the two
  `time.time()` readings, and the outcome of the external pipeline call)
  are packaged in an `Env` oracle record passed in explicitly.
* Exceptions are `Except String`.
-/

namespace App

/-- Dimension normalization from `generate_image` (app.py lines 136-137):
`max(64, min(1024, dim // 8 * 8))` — floor to a multiple of 8 first, then
clamp to `[64, 1024]`. -/
def clampDim (d : Int) : Int := max 64 (min 1024 (d.fdiv 8 * 8))

/-- The spec's formula, stated in the opposite order: clamp to `[64, 1024]`
first (`dim' = clamp(dim, 64, 1024)`), then floor to the nearest multiple of
8 (`dim'' = (dim' // 8) * 8`). -/
def clampDimSpec (d : Int) : Int := (max 64 (min 1024 d)).fdiv 8 * 8

/-! ### String utilities mirroring the Python built-ins used by the code -/

/-- `leadsWith needle hay` is true when `hay` starts with `needle`
(code-point by code-point). -/
def leadsWith : List Char → List Char → Bool
  | [], _ => true
  | _ :: _, [] => false
  | a :: as, b :: bs => a == b && leadsWith as bs

/-- `hasSub needle hay`: `needle` occurs contiguously inside `hay`.
This is Python's `needle in hay` for strings, on the code-point lists. -/
def hasSub (needle : List Char) : List Char → Bool
  | [] => needle.isEmpty
  | c :: t => leadsWith needle (c :: t) || hasSub needle t

/-- Python `needle in hay` on strings. -/
def strIn (needle hay : String) : Bool := hasSub needle.data hay.data

/-- Python `str.lower()`: lowercase every code point. -/
def pyLower (s : String) : String := String.mk (s.data.map Char.toLower)

/-- Python `not s.strip()`: `s` is empty or consists only of whitespace. -/
def isBlank (s : String) : Bool := s.data.all Char.isWhitespace

/-- Python `s[:n]`: the first `n` code points of `s`. -/
def pySlice (s : String) (n : Nat) : String := String.mk (s.data.take n)

/-! ### Prompt construction (`enhance_prompt` and the style presets) -/

/-- The fixed ordered enhancer list (app.py lines 205-208). -/
def enhancers : List String :=
  ["high quality", "detailed", "professional", "artistic",
   "4k resolution", "sharp focus", "well-composed"]

/-- `enhance_prompt` (app.py lines 199-220): if the enhancer is off or the
prompt is empty/whitespace-only, return the prompt unchanged; otherwise
append the first (at most) 3 enhancer terms not already occurring
case-insensitively inside the prompt, comma-separated. -/
def enhance_prompt (prompt : String) (use_enhancer : Bool) : String :=
  if !use_enhancer || isBlank prompt then prompt
  else
    let prompt_lower := pyLower prompt
    let missing_enhancers := enhancers.filter (fun e => !(strIn e prompt_lower))
    if missing_enhancers.isEmpty then prompt
    else prompt ++ ", " ++ String.intercalate ", " (missing_enhancers.take 3)

/-- The style-preset table of the full variant
(`style_prompts` in `generate_image_gradio`, app.py lines 238-247). -/
def style_prompts : List (String × String) :=
  [("📸 Photorealistic", ", photorealistic, realistic, detailed, high quality"),
   ("🎨 Artistic", ", artistic, painting style, creative, expressive"),
   ("🌟 Cinematic", ", cinematic, dramatic lighting, movie scene, epic"),
   ("✨ Fantasy", ", fantasy art, magical, ethereal, mystical"),
   ("🔮 Sci-Fi", ", science fiction, futuristic, high-tech, cyberpunk"),
   ("🏞️ Landscape", ", landscape photography, natural lighting, scenic"),
   ("👤 Portrait", ", portrait, professional headshot, well-lit face"),
   ("🎭 Vintage", ", vintage style, retro, classic, nostalgic")]

/-- Python `dict` lookup on the preset table. -/
def lookupStyle : List (String × String) → String → Option String
  | [], _ => none
  | (k, v) :: rest, key => if k == key then some v else lookupStyle rest key

/-- Style application in `generate_image_gradio` (app.py lines 236-249):
if the preset is not "None" and is a key of the table, append its suffix. -/
def applyStyle (style_preset prompt : String) : String :=
  if style_preset == "None" then prompt
  else
    match lookupStyle style_prompts style_preset with
    | some suf => prompt ++ suf
    | none => prompt

/-- The claim's "terms of the fixed ordered list that do not
case-insensitively occur in `p`, preserving list order" (the
`missing_enhancers` list of app.py line 212). -/
def missingTerms (p : String) : List String :=
  enhancers.filter (fun e => !(strIn e (pyLower p)))

/-! ### `TextToImageGenerator.generate_image` (app.py lines 109-193) -/

/-- Python `round(x, 2)` modelled on rationals: round to the nearest
multiple of 1/100 (binary-float tie behavior abstracted away). -/
def round2 (q : ℚ) : ℚ := ((round (q * 100) : Int) : ℚ) / 100

/-- Ambient inputs of one `generate_image` run, packaged as an oracle. -/
structure Env where
  /-- Value of `torch.randint(0, 2**32, (1,)).item()` (line 144). -/
  drawnSeed : Int
  /-- `datetime.now().strftime("%Y%m%d_%H%M%S")` (line 166). -/
  timestamp : String
  /-- First `time.time()` reading (line 146), seconds. -/
  startTime : ℚ
  /-- Second `time.time()` reading (line 163), seconds. -/
  endTime : ℚ
  /-- Outcome of the external pipeline call (lines 151-160): the produced
  image `result.images[0]` (abstracted to a `Nat` token) or the exception
  the pipeline raised. -/
  pipelineOutcome : Except String Nat
  /-- `self.model_id` of the generator object. -/
  model_id : String
  /-- `self.device` of the generator object. -/
  device : String

/-- The argument record of the single `self.pipeline(...)` call
(app.py lines 152-160). `generator` is the torch generator argument:
`some s` for a generator manually seeded with `s`, `none` for Python
`None`. `negative_prompt` is `none` for Python `None` (the pipeline's
"no negative prompt" convention). -/
structure PipelineCall where
  prompt : String
  negative_prompt : Option String
  width : Int
  height : Int
  num_inference_steps : Int
  guidance_scale : ℚ
  generator : Option Int
  deriving DecidableEq

/-- The `info` metadata dictionary (app.py lines 173-185). -/
structure GenInfo where
  prompt : String
  negative_prompt : String
  width : Int
  height : Int
  steps : Int
  guidance_scale : ℚ
  seed : Int
  generation_time : ℚ
  saved_as : String
  model : String
  device : String
  deriving DecidableEq

/-- Result and effect trace of one `generate_image` run: the returned
`(image, info)` pair or the propagated exception, the pipeline calls made,
the directories created, the files written, and the `logger.error` lines
emitted. -/
structure GenOutcome where
  result : Except String (Nat × GenInfo)
  calls : List PipelineCall
  dirsCreated : List String
  filesWritten : List String
  errorsLogged : Nat

/-- `TextToImageGenerator.generate_image` (app.py lines 109-193).
Seed resolution (lines 139-144) follows the source exactly: with a supplied
seed the generator is manually seeded; with `seed = None` the generator
variable stays `None` and a fresh 32-bit seed is drawn and only recorded.
On success the image is saved as
`outputs/generated_<timestamp>_<seed>.png` (lines 165-170) and the
metadata is assembled (lines 173-185); on a pipeline exception the error
is logged and re-raised (lines 191-193). -/
def generate_image (env : Env) (prompt negative_prompt : String)
    (width height num_inference_steps : Int) (guidance_scale : ℚ)
    (seed : Option Int) : GenOutcome :=
  let width' := clampDim width
  let height' := clampDim height
  let resolved := match seed with
    | some s => (some s, s)
    | none => (none, env.drawnSeed)
  let generator := resolved.1
  let seedVal := resolved.2
  let call : PipelineCall :=
    { prompt := prompt
      negative_prompt := if negative_prompt == "" then none else some negative_prompt
      width := width'
      height := height'
      num_inference_steps := num_inference_steps
      guidance_scale := guidance_scale
      generator := generator }
  match env.pipelineOutcome with
  | .error e =>
      { result := .error e
        calls := [call]
        dirsCreated := []
        filesWritten := []
        errorsLogged := 1 }
  | .ok image =>
      let filename := "generated_" ++ env.timestamp ++ "_" ++ toString seedVal ++ ".png"
      let info : GenInfo :=
        { prompt := prompt
          negative_prompt := negative_prompt
          width := width'
          height := height'
          steps := num_inference_steps
          guidance_scale := guidance_scale
          seed := seedVal
          generation_time := round2 (env.endTime - env.startTime)
          saved_as := filename
          model := env.model_id
          device := env.device }
      { result := .ok (image, info)
        calls := [call]
        dirsCreated := ["outputs"]
        filesWritten := ["outputs/" ++ filename]
        errorsLogged := 0 }

/-! ### The Gradio request handler `generate_image_gradio` (app.py 222-271) -/

/-- What the full-variant handler returns and the effects of the request. -/
structure HandlerOutcome where
  image : Option Nat
  calls : List PipelineCall
  dirsCreated : List String
  filesWritten : List String
  errorsLogged : Nat
  deriving DecidableEq

/-- `generate_image_gradio` (app.py lines 222-271): blank prompts
short-circuit to `None`; otherwise the style preset and the enhancer are
applied, `generate_image` is invoked with guidance 7.5 and `seed = None`,
and any exception is caught, logged and turned into `None`. The handler
itself never raises. -/
def generate_image_gradio (env : Env) (prompt negative_prompt style_preset : String)
    (width height steps : Int) (use_enhancer : Bool) : HandlerOutcome :=
  if isBlank prompt then
    { image := none, calls := [], dirsCreated := [], filesWritten := [], errorsLogged := 0 }
  else
    let styled := applyStyle style_preset prompt
    let enhanced_prompt := enhance_prompt styled use_enhancer
    let out := generate_image env enhanced_prompt negative_prompt width height steps (15/2) none
    match out.result with
    | .ok (image, _) =>
        { image := some image
          calls := out.calls
          dirsCreated := out.dirsCreated
          filesWritten := out.filesWritten
          errorsLogged := out.errorsLogged }
    | .error _ =>
        { image := none
          calls := out.calls
          dirsCreated := out.dirsCreated
          filesWritten := out.filesWritten
          errorsLogged := out.errorsLogged + 1 }

/-! ### The demo variant (`app_vercel.py`) -/

/-- The style-preset table of the demo variant
(`style_prompts` in app_vercel.py lines 46-55). -/
def style_prompts_vercel : List (String × String) :=
  [("📸 Photorealistic", ", photorealistic, realistic, detailed, high quality"),
   ("🎨 Artistic", ", artistic, painting style, creative, expressive"),
   ("🌟 Cinematic", ", cinematic, dramatic lighting, movie scene, epic"),
   ("✨ Fantasy", ", fantasy art, magical, ethereal, mystical"),
   ("🔮 Sci-Fi", ", science fiction, futuristic, high-tech, cyberpunk"),
   ("🏞️ Landscape", ", landscape photography, natural lighting, scenic"),
   ("👤 Portrait", ", portrait, professional headshot, well-lit face"),
   ("🎭 Vintage", ", vintage style, retro, classic, nostalgic")]

/-- Style application of the demo handler (app_vercel.py lines 45-57). -/
def applyStyle_vercel (style_preset prompt : String) : String :=
  if style_preset == "None" then prompt
  else
    match lookupStyle style_prompts_vercel style_preset with
    | some suf => prompt ++ suf
    | none => prompt

/-- The metadata dictionary returned by `DemoImageGenerator.generate_image`
(app_vercel.py lines 29-33). -/
structure DemoInfo where
  prompt : String
  status : String
  suggestion : String
  deriving DecidableEq

/-- Return value and effect trace of `DemoImageGenerator.generate_image`:
no image, a fixed status/suggestion record, one 2-second `time.sleep`. -/
structure DemoGenResult where
  image : Option Nat
  info : DemoInfo
  sleeps : List ℚ
  deriving DecidableEq

/-- `DemoImageGenerator.generate_image` (app_vercel.py lines 18-33):
sleeps 2 seconds, then returns `None` and a fixed status record echoing
the prompt. -/
def DemoImageGenerator.generate_image (prompt : String) : DemoGenResult :=
  { image := none
    info :=
      { prompt := prompt
        status := "Demo mode - actual generation requires GPU resources"
        suggestion := "For full functionality, run locally or use cloud GPU services" }
    sleeps := [2] }

/-- The `demo_message` f-string of the demo handler (app_vercel.py lines
60-74), built from the style-augmented prompt truncated to its first 100
code points. Numeric widgets are rendered with `toString` of the integer
value. -/
def demo_message (prompt style_preset : String) (width height steps : Int) : String :=
  "\n🎨 DreamForge Studio - Web Demo\n\n📝 Your prompt: \"" ++ pySlice prompt 100
    ++ "...\"\n⚙️ Settings: " ++ toString width ++ "×" ++ toString height ++ ", "
    ++ toString steps ++ " steps\n🎭 Style: " ++ style_preset
    ++ "\n\n🌐 This is a web demo version. For full AI image generation:\n"
    ++ "• Download and run locally for CPU generation\n"
    ++ "• Use cloud GPU services for faster generation\n"
    ++ "• Integrate with AI APIs for production deployment\n\n"
    ++ "🚀 The interface is fully functional - only the AI model \n"
    ++ "   requires local resources or cloud GPU for actual generation.\n        "

/-- What the demo handler returns and the effects of the request:
`output` is the text pushed to the demo textbox (`gr.update(value=...)`),
`image` an image payload (there is none), `generatorCalls` counts
invocations of `DemoImageGenerator.generate_image`, `sleeps` the executed
`time.sleep` calls, `filesWritten` the filesystem writes. -/
structure DemoHandlerOutcome where
  output : Option String
  image : Option Nat
  generatorCalls : Nat
  sleeps : List ℚ
  filesWritten : List String
  deriving DecidableEq

/-- The demo-variant `generate_image_gradio` (app_vercel.py lines 38-80):
blank prompts short-circuit to `None`; otherwise the style preset is
appended and the demo message is returned. The handler never calls
`DemoImageGenerator.generate_image` (so no sleep runs), never produces an
image, and performs no filesystem operation; `negative_prompt` and
`use_enhancer` are accepted but unused. -/
def generate_image_gradio_vercel (prompt _negative_prompt style_preset : String)
    (width height steps : Int) (_use_enhancer : Bool) : DemoHandlerOutcome :=
  if isBlank prompt then
    { output := none, image := none, generatorCalls := 0, sleeps := [], filesWritten := [] }
  else
    let styled := applyStyle_vercel style_preset prompt
    { output := some (demo_message styled style_preset width height steps)
      image := none
      generatorCalls := 0
      sleeps := []
      filesWritten := [] }

/-! ### Concrete sample runs used by witnesses and counterexamples -/

/-- A sample environment for a successful run: drawn seed 123456, pipeline
returns image token 7, the run takes 1.57 seconds. -/
def sampleEnv : Env :=
  { drawnSeed := 123456
    timestamp := "20240101_120000"
    startTime := 0
    endTime := 157/100
    pipelineOutcome := .ok 7
    model_id := "runwayml/stable-diffusion-v1-5"
    device := "cpu" }

/-- A sample environment whose pipeline call raises. -/
def sampleEnvErr : Env :=
  { drawnSeed := 123456
    timestamp := "20240101_120000"
    startTime := 0
    endTime := 157/100
    pipelineOutcome := .error "CUDA out of memory"
    model_id := "runwayml/stable-diffusion-v1-5"
    device := "cpu" }

/-- A 101-character prompt (101 copies of `a`). -/
def promptA101 : String := String.mk (List.replicate 101 'a')

/-! ## Theorems -/

/-! ### Dimension normalization -/

theorem clampDim_eq_spec (d : Int) : clampDim d = clampDimSpec d := by
  unfold clampDim clampDimSpec
  have h8 : (0 : Int) ≤ 8 := by decide
  rw [Int.fdiv_eq_ediv _ h8, Int.fdiv_eq_ediv _ h8]
  omega

theorem clampDim_bounds (d : Int) :
    64 ≤ clampDim d ∧ clampDim d ≤ 1024 ∧ 8 ∣ clampDim d := by
  unfold clampDim
  rw [Int.fdiv_eq_ediv _ (by decide : (0 : Int) ≤ 8)]
  omega

/-- C1: the dimension used for the pipeline call and recorded in the
metadata equals `clamp(dim, 64, 1024)` followed by flooring to the nearest
multiple of 8 (the code floors first and clamps second, which yields the
same value for every integer); for every integer `w` in `[1, 2000]` the
normalized value lies in `[64, 1024]` and is divisible by 8; and
`width = 2000, height = 10` normalize to `1024` and `64`. -/
theorem claim_C1 :
    (∀ d : Int, clampDim d = (max 64 (min 1024 d)).fdiv 8 * 8) ∧
    (∀ w : Int, 1 ≤ w → w ≤ 2000 →
      64 ≤ clampDim w ∧ clampDim w ≤ 1024 ∧ 8 ∣ clampDim w) ∧
    clampDim 2000 = 1024 ∧ clampDim 10 = 64 :=
  ⟨fun d => clampDim_eq_spec d,
   fun w _ _ => clampDim_bounds w,
   by decide, by decide⟩

theorem claim_C1_witness :
    (1 : Int) ≤ 100 ∧ (100 : Int) ≤ 2000 ∧
      (64 ≤ clampDim 100 ∧ clampDim 100 ≤ 1024 ∧ 8 ∣ clampDim 100) :=
  ⟨by decide, by decide, claim_C1.2.1 100 (by decide) (by decide)⟩

/-! ### Seed resolution -/

/-- C2: the claim asserts that when `seed` is absent the drawn 32-bit seed
recorded in the metadata is the seed driving the pipeline's generator. The
code (app.py lines 139-144) sets `generator = None` and only afterwards
draws the seed it records, so the pipeline receives an unseeded generator:
resubmitting the recorded seed does not reproduce the run. This theorem
evaluates `generate_image` at the failing input `seed = None`: the
metadata's seed is the drawn value 123456 (a concrete integer in
`[0, 2^32)`), the provided-seed path does seed the generator, but the
pipeline call of the absent-seed run carries `generator = none`, not a
generator seeded with 123456. -/
theorem claim_C2 :
    ((generate_image sampleEnv "a cat" "" 512 512 20 (15/2) (some 42)).calls.map
        PipelineCall.generator = [some 42]) ∧
    ((generate_image sampleEnv "a cat" "" 512 512 20 (15/2) (some 42)).result.toOption.map
        (fun r => r.2.seed) = some 42) ∧
    ((generate_image sampleEnv "a cat" "" 512 512 20 (15/2) none).result.toOption.map
        (fun r => r.2.seed) = some 123456) ∧
    (0 ≤ (123456 : Int) ∧ (123456 : Int) < 2 ^ 32) ∧
    ((generate_image sampleEnv "a cat" "" 512 512 20 (15/2) none).calls.map
        PipelineCall.generator = [none]) := by
  refine ⟨rfl, rfl, rfl, by decide, rfl⟩

/-! ### Prompt enhancement -/

/-- C3: `enhance_prompt(p, False) = p`; an empty or whitespace-only prompt
is returned unchanged even with the enhancer on; otherwise the missing
terms form an order-preserving sublist of the fixed enhancer list, none of
them occurs case-insensitively in the prompt, and at most the first 3 of
them are appended comma-separated; `enhance_prompt("a cat", True)` appends
exactly the first 3 list terms, none already present in "a cat". -/
theorem claim_C3 :
    (∀ p, enhance_prompt p false = p) ∧
    (∀ p, isBlank p = true → enhance_prompt p true = p) ∧
    (∀ p, isBlank p = false →
      List.Sublist (missingTerms p) enhancers ∧
      (∀ e ∈ missingTerms p, strIn e (pyLower p) = false) ∧
      enhance_prompt p true =
        (if (missingTerms p).isEmpty then p
         else p ++ ", " ++ String.intercalate ", " ((missingTerms p).take 3))) ∧
    enhance_prompt "a cat" true = "a cat, high quality, detailed, professional" ∧
    missingTerms "a cat" = enhancers ∧
    (∀ e ∈ enhancers.take 3, strIn e (pyLower "a cat") = false) := by
  refine ⟨fun p => rfl, ?_, ?_, by decide, by decide, by decide⟩
  · intro p h
    simp [enhance_prompt, h]
  · intro p h
    refine ⟨List.filter_sublist _, ?_, ?_⟩
    · intro e he
      simpa using (List.mem_filter.mp he).2
    · simp [enhance_prompt, missingTerms, h]

theorem claim_C3_witness :
    enhance_prompt "dog" false = "dog" ∧
    enhance_prompt "  " true = "  " ∧
    (List.Sublist (missingTerms "a cat") enhancers ∧
     (∀ e ∈ missingTerms "a cat", strIn e (pyLower "a cat") = false) ∧
     enhance_prompt "a cat" true =
       (if (missingTerms "a cat").isEmpty then "a cat"
        else "a cat" ++ ", " ++ String.intercalate ", " ((missingTerms "a cat").take 3))) :=
  ⟨claim_C3.1 "dog", claim_C3.2.1 "  " (by decide), claim_C3.2.2.1 "a cat" (by decide)⟩

/-! ### Style presets -/

/-- C4: for every prompt and every preset in the table (hence other than
"None"), style application appends the preset's fixed literal suffix;
the "📸 Photorealistic" preset applied to "X" yields exactly
"X, photorealistic, realistic, detailed, high quality"; and the
preset-to-suffix table of the full variant is identical to the demo
variant's. -/
theorem claim_C4 :
    (∀ prompt key suf, lookupStyle style_prompts key = some suf →
        applyStyle key prompt = prompt ++ suf) ∧
    applyStyle "📸 Photorealistic" "X"
      = "X, photorealistic, realistic, detailed, high quality" ∧
    style_prompts = style_prompts_vercel := by
  refine ⟨?_, by decide, by decide⟩
  intro prompt key suf hl
  by_cases hk : key == "None"
  · have hk' : key = "None" := by simpa using hk
    have hn : lookupStyle style_prompts "None" = none := by decide
    rw [hk', hn] at hl
    cases hl
  · simp [applyStyle, hk, hl]

theorem claim_C4_witness :
    lookupStyle style_prompts "🎭 Vintage" = some ", vintage style, retro, classic, nostalgic" ∧
    applyStyle "🎭 Vintage" "Y" = "Y" ++ ", vintage style, retro, classic, nostalgic" :=
  ⟨by decide, claim_C4.1 "Y" "🎭 Vintage" _ (by decide)⟩

/-! ### Empty-prompt short circuit -/

/-- C5: an empty or whitespace-only prompt makes both request handlers
short-circuit before the pipeline. The full variant returns no image, makes
no pipeline call, creates no directory, writes no file and logs no error;
the demo variant returns no output text, no image, invokes the demo
generator zero times, sleeps zero times and writes no file. Both handlers
are total functions in this model, so no exception is raised either. -/
theorem claim_C5 (env : Env) (prompt negative_prompt style_preset : String)
    (width height steps : Int) (use_enhancer : Bool)
    (hblank : isBlank prompt = true) :
    generate_image_gradio env prompt negative_prompt style_preset width height steps
        use_enhancer
      = { image := none, calls := [], dirsCreated := [], filesWritten := [],
          errorsLogged := 0 } ∧
    generate_image_gradio_vercel prompt negative_prompt style_preset width height steps
        use_enhancer
      = { output := none, image := none, generatorCalls := 0, sleeps := [],
          filesWritten := [] } := by
  constructor
  · simp [generate_image_gradio, hblank]
  · simp [generate_image_gradio_vercel, hblank]

theorem claim_C5_witness :
    isBlank "" = true ∧
    (generate_image_gradio sampleEnv "" "low quality" "None" 512 512 25 true
      = { image := none, calls := [], dirsCreated := [], filesWritten := [],
          errorsLogged := 0 } ∧
     generate_image_gradio_vercel "" "low quality" "None" 512 512 25 true
      = { output := none, image := none, generatorCalls := 0, sleeps := [],
          filesWritten := [] }) :=
  ⟨by decide, claim_C5 sampleEnv "" "low quality" "None" 512 512 25 true (by decide)⟩

/-! ### Pipeline invocation -/

theorem generate_image_calls (env : Env) (prompt negative_prompt : String)
    (width height steps : Int) (guidance : ℚ) (seed : Option Int) :
    (generate_image env prompt negative_prompt width height steps guidance seed).calls =
      [{ prompt := prompt
         negative_prompt := if negative_prompt == "" then none else some negative_prompt
         width := clampDim width
         height := clampDim height
         num_inference_steps := steps
         guidance_scale := guidance
         generator := seed }] := by
  cases seed <;> cases hp : env.pipelineOutcome <;> simp [generate_image, hp]

theorem gradio_calls (env : Env) (prompt negative_prompt style_preset : String)
    (width height steps : Int) (use_enhancer : Bool)
    (hblank : isBlank prompt = false) :
    (generate_image_gradio env prompt negative_prompt style_preset width height steps
        use_enhancer).calls =
      (generate_image env (enhance_prompt (applyStyle style_preset prompt) use_enhancer)
        negative_prompt width height steps (15/2) none).calls := by
  simp only [generate_image_gradio, hblank, Bool.false_eq_true, if_false]
  split <;> rfl

/-- C6: every run of `generate_image` calls the external pipeline exactly
once (the call trace is a singleton), carrying the normalized width and
height, the steps, the guidance scale, the generator resolved from the
seed, and — when the negative prompt is the empty string — the pipeline's
no-negative-prompt value `None`; when reached through the handler, the
call's prompt is the style-and-enhancer-normalized prompt. -/
theorem claim_C6 :
    (∀ (env : Env) (prompt negative_prompt : String) (width height steps : Int)
        (guidance : ℚ) (seed : Option Int),
      (generate_image env prompt negative_prompt width height steps guidance seed).calls =
        [{ prompt := prompt
           negative_prompt := if negative_prompt == "" then none else some negative_prompt
           width := clampDim width
           height := clampDim height
           num_inference_steps := steps
           guidance_scale := guidance
           generator := seed }]) ∧
    (∀ (env : Env) (prompt negative_prompt style_preset : String)
        (width height steps : Int) (use_enhancer : Bool),
      isBlank prompt = false →
      (generate_image_gradio env prompt negative_prompt style_preset width height steps
          use_enhancer).calls =
        [{ prompt := enhance_prompt (applyStyle style_preset prompt) use_enhancer
           negative_prompt := if negative_prompt == "" then none else some negative_prompt
           width := clampDim width
           height := clampDim height
           num_inference_steps := steps
           guidance_scale := 15/2
           generator := none }]) :=
  ⟨generate_image_calls,
   fun env prompt np style w h steps ue hb =>
     (gradio_calls env prompt np style w h steps ue hb).trans
       (generate_image_calls env (enhance_prompt (applyStyle style prompt) ue) np w h steps
         (15/2) none)⟩

theorem claim_C6_witness :
    isBlank "a cat" = false ∧
    (generate_image_gradio sampleEnv "a cat" "" "None" 512 512 20 true).calls =
      [{ prompt := enhance_prompt (applyStyle "None" "a cat") true
         negative_prompt := if ("" : String) == "" then none else some ""
         width := clampDim 512
         height := clampDim 512
         num_inference_steps := 20
         guidance_scale := 15/2
         generator := none }] :=
  ⟨by decide, claim_C6.2 sampleEnv "a cat" "" "None" 512 512 20 true (by decide)⟩

/-! ### Failure propagation -/

theorem gradio_error_eq (env : Env) (e : String) (he : env.pipelineOutcome = .error e)
    (prompt negative_prompt style_preset : String) (width height steps : Int)
    (use_enhancer : Bool) (hblank : isBlank prompt = false) :
    generate_image_gradio env prompt negative_prompt style_preset width height steps
        use_enhancer =
      { image := none
        calls := [{ prompt := enhance_prompt (applyStyle style_preset prompt) use_enhancer
                    negative_prompt := if negative_prompt == "" then none
                                       else some negative_prompt
                    width := clampDim width
                    height := clampDim height
                    num_inference_steps := steps
                    guidance_scale := 15/2
                    generator := none }]
        dirsCreated := []
        filesWritten := []
        errorsLogged := 2 } := by
  simp [generate_image_gradio, hblank, generate_image, he]

/-- C8: when the pipeline call raises, the exception propagates out of
`generate_image` (after one error log line there), the handler catches it,
logs it and returns a null image; no file is written and the pipeline is
not retried (exactly one call). -/
theorem claim_C8 (env : Env) (e : String) (he : env.pipelineOutcome = .error e)
    (prompt negative_prompt style_preset : String) (width height steps : Int)
    (use_enhancer : Bool) (hblank : isBlank prompt = false) :
    (generate_image env (enhance_prompt (applyStyle style_preset prompt) use_enhancer)
        negative_prompt width height steps (15/2) none).result = Except.error e ∧
    (generate_image env (enhance_prompt (applyStyle style_preset prompt) use_enhancer)
        negative_prompt width height steps (15/2) none).errorsLogged = 1 ∧
    (generate_image_gradio env prompt negative_prompt style_preset width height steps
        use_enhancer).image = none ∧
    (generate_image_gradio env prompt negative_prompt style_preset width height steps
        use_enhancer).errorsLogged = 2 ∧
    (generate_image_gradio env prompt negative_prompt style_preset width height steps
        use_enhancer).calls.length = 1 ∧
    (generate_image_gradio env prompt negative_prompt style_preset width height steps
        use_enhancer).filesWritten = [] := by
  have hh := gradio_error_eq env e he prompt negative_prompt style_preset width height steps
    use_enhancer hblank
  refine ⟨by simp [generate_image, he], by simp [generate_image, he], ?_, ?_, ?_, ?_⟩ <;>
    simp [hh]

theorem claim_C8_witness :
    (generate_image_gradio sampleEnvErr "a cat" "" "None" 512 512 20 true).image = none ∧
    (generate_image_gradio sampleEnvErr "a cat" "" "None" 512 512 20 true).errorsLogged = 2 ∧
    (generate_image_gradio sampleEnvErr "a cat" "" "None" 512 512 20 true).calls.length = 1 ∧
    (generate_image_gradio sampleEnvErr "a cat" "" "None" 512 512 20 true).filesWritten = [] :=
  ⟨(claim_C8 sampleEnvErr "CUDA out of memory" rfl "a cat" "" "None" 512 512 20 true
      (by decide)).2.2.1,
   (claim_C8 sampleEnvErr "CUDA out of memory" rfl "a cat" "" "None" 512 512 20 true
      (by decide)).2.2.2.1,
   (claim_C8 sampleEnvErr "CUDA out of memory" rfl "a cat" "" "None" 512 512 20 true
      (by decide)).2.2.2.2.1,
   (claim_C8 sampleEnvErr "CUDA out of memory" rfl "a cat" "" "None" 512 512 20 true
      (by decide)).2.2.2.2.2⟩

/-! ### Persistence and timing -/

/-- C9: on success `generate_image` creates the fixed output directory
"outputs", writes the image under
`generated_<timestamp>_<seed>.png` inside it, records that filename in the
metadata, and records the wall-clock duration of the run rounded to two
decimal places. -/
theorem claim_C9 (env : Env) (img : Nat) (hok : env.pipelineOutcome = .ok img)
    (prompt negative_prompt : String) (width height steps : Int) (guidance : ℚ)
    (seed : Option Int) :
    (generate_image env prompt negative_prompt width height steps guidance
        seed).dirsCreated = ["outputs"] ∧
    (generate_image env prompt negative_prompt width height steps guidance
        seed).filesWritten =
      ["outputs/" ++ ("generated_" ++ env.timestamp ++ "_"
        ++ toString (seed.getD env.drawnSeed) ++ ".png")] ∧
    (generate_image env prompt negative_prompt width height steps guidance seed).result =
      Except.ok (img,
        { prompt := prompt
          negative_prompt := negative_prompt
          width := clampDim width
          height := clampDim height
          steps := steps
          guidance_scale := guidance
          seed := seed.getD env.drawnSeed
          generation_time := round2 (env.endTime - env.startTime)
          saved_as := "generated_" ++ env.timestamp ++ "_"
            ++ toString (seed.getD env.drawnSeed) ++ ".png"
          model := env.model_id
          device := env.device }) := by
  cases seed <;> simp [generate_image, hok, Option.getD]

theorem claim_C9_witness :
    sampleEnv.pipelineOutcome = Except.ok 7 ∧
    (generate_image sampleEnv "a cat" "" 512 512 20 (15/2) none).filesWritten =
      ["outputs/" ++ ("generated_" ++ sampleEnv.timestamp ++ "_"
        ++ toString ((none : Option Int).getD sampleEnv.drawnSeed) ++ ".png")] ∧
    round2 (sampleEnv.endTime - sampleEnv.startTime) = 157/100 :=
  ⟨rfl, (claim_C9 sampleEnv 7 rfl "a cat" "" 512 512 20 (15/2) none).2.1,
   by norm_num [round2, sampleEnv, round_eq]⟩

/-! ### Substring facts used for the demo variant -/

theorem leadsWith_self_append (xs ys : List Char) : leadsWith xs (xs ++ ys) = true := by
  induction xs with
  | nil => rfl
  | cons a as ih => simp [leadsWith, ih]

theorem hasSub_nil (l : List Char) : hasSub [] l = true := by
  cases l <;> simp [hasSub, leadsWith, List.isEmpty]

theorem hasSub_append (pre needle post : List Char) :
    hasSub needle (pre ++ (needle ++ post)) = true := by
  induction pre with
  | nil =>
    cases needle with
    | nil => simpa using hasSub_nil ([] ++ post)
    | cons n ns =>
      have h := leadsWith_self_append (n :: ns) post
      rw [List.cons_append] at h
      simp [hasSub, h]
  | cons c cs ih =>
    simp [hasSub, ih]

theorem data_mk (l : List Char) : (String.mk l).data = l := rfl

theorem strIn_slice_demo (p style_preset : String) (width height steps : Int) :
    strIn (pySlice p 100) (demo_message p style_preset width height steps) = true := by
  unfold strIn demo_message pySlice
  simp only [String.data_append, data_mk, List.append_assoc]
  exact hasSub_append _ _ _

/-! ### The demo handler -/

set_option maxRecDepth 100000 in
/-- C7 counterexample: with a 101-character prompt (style "None"), the demo
handler's status text truncates the prompt to its first 100 characters, so
the original prompt does not occur in the returned text; moreover the
handler executes no sleep, so the "fixed simulated delay" never happens. -/
theorem claim_C7_counterexample :
    isBlank promptA101 = false ∧
    (generate_image_gradio_vercel promptA101 "" "None" 512 512 25 true).sleeps = [] ∧
    (generate_image_gradio_vercel promptA101 "" "None" 512 512 25 true).output.getD "" ≠ "" ∧
    strIn promptA101
      ((generate_image_gradio_vercel promptA101 "" "None" 512 512 25 true).output.getD "")
      = false :=
  ⟨by decide, by decide, by decide, by decide⟩

/-- C7 (amended): for every non-blank prompt, the demo handler returns —
without executing any simulated delay (it never invokes the demo
generator's sleeping method) — a status text that contains the first 100
characters of the style-augmented prompt, and no image payload; it writes
no file. -/
theorem claim_C7 (prompt negative_prompt style_preset : String)
    (width height steps : Int) (use_enhancer : Bool)
    (hblank : isBlank prompt = false) :
    (generate_image_gradio_vercel prompt negative_prompt style_preset width height steps
        use_enhancer).output =
      some (demo_message (applyStyle_vercel style_preset prompt) style_preset
        width height steps) ∧
    strIn (pySlice (applyStyle_vercel style_preset prompt) 100)
      (demo_message (applyStyle_vercel style_preset prompt) style_preset width height steps)
      = true ∧
    (generate_image_gradio_vercel prompt negative_prompt style_preset width height steps
        use_enhancer).image = none ∧
    (generate_image_gradio_vercel prompt negative_prompt style_preset width height steps
        use_enhancer).generatorCalls = 0 ∧
    (generate_image_gradio_vercel prompt negative_prompt style_preset width height steps
        use_enhancer).sleeps = [] ∧
    (generate_image_gradio_vercel prompt negative_prompt style_preset width height steps
        use_enhancer).filesWritten = [] := by
  refine ⟨?_, strIn_slice_demo _ _ _ _ _, ?_, ?_, ?_, ?_⟩ <;>
    simp [generate_image_gradio_vercel, hblank]

theorem claim_C7_witness :
    isBlank "a cat" = false ∧
    (generate_image_gradio_vercel "a cat" "" "None" 512 512 25 true).image = none ∧
    (generate_image_gradio_vercel "a cat" "" "None" 512 512 25 true).sleeps = [] :=
  ⟨by decide,
   (claim_C7 "a cat" "" "None" 512 512 25 true (by decide)).2.2.1,
   (claim_C7 "a cat" "" "None" 512 512 25 true (by decide)).2.2.2.2.1⟩

/-! ### Prompt transformations only append -/

theorem str_append_empty (s : String) : s ++ "" = s := by
  cases s with
  | mk data => exact congrArg String.mk (List.append_nil data)

theorem str_append_assoc (a b c : String) : a ++ b ++ c = a ++ (b ++ c) := by
  cases a with
  | mk la =>
    cases b with
    | mk lb =>
      cases c with
      | mk lc => exact congrArg String.mk (List.append_assoc la lb lc)

/-- C10: both prompt-transforming operations only append text: the input
prompt is a prefix of `enhance_prompt p flag` for every flag, and of the
style application's result for every preset (in both variants); no
character of the original prompt is deleted or rewritten. -/
theorem claim_C10 (p : String) :
    (∀ flag, ∃ t, enhance_prompt p flag = p ++ t) ∧
    (∀ preset, ∃ t, applyStyle preset p = p ++ t) ∧
    (∀ preset, ∃ t, applyStyle_vercel preset p = p ++ t) := by
  refine ⟨?_, ?_, ?_⟩
  · intro flag
    by_cases h1 : (!flag || isBlank p) = true
    · exact ⟨"", by simp [enhance_prompt, h1, str_append_empty]⟩
    · by_cases h2 : (enhancers.filter (fun e => !(strIn e (pyLower p)))).isEmpty = true
      · exact ⟨"", by simp [enhance_prompt, h1, h2, str_append_empty]⟩
      · exact ⟨", " ++ String.intercalate ", "
            ((enhancers.filter (fun e => !(strIn e (pyLower p)))).take 3),
          by simp [enhance_prompt, h1, h2, str_append_assoc]⟩
  · intro preset
    by_cases hk : (preset == "None") = true
    · exact ⟨"", by simp [applyStyle, hk, str_append_empty]⟩
    · cases hl : lookupStyle style_prompts preset with
      | none => exact ⟨"", by simp [applyStyle, hk, hl, str_append_empty]⟩
      | some suf => exact ⟨suf, by simp [applyStyle, hk, hl]⟩
  · intro preset
    by_cases hk : (preset == "None") = true
    · exact ⟨"", by simp [applyStyle_vercel, hk, str_append_empty]⟩
    · cases hl : lookupStyle style_prompts_vercel preset with
      | none => exact ⟨"", by simp [applyStyle_vercel, hk, hl, str_append_empty]⟩
      | some suf => exact ⟨suf, by simp [applyStyle_vercel, hk, hl]⟩

end App


